import Mathlib

/-!
Verification development for the OPERA SDS granule reconciliation scripts
(`dswx_hls_duplicate_analysis.py`, `latency_graph.py`,
`opera_daily_products_query.py`, `s1_to_rtc.py`).

Python strings are modelled as `List Char` (`Str`): Python indexes and
slices strings by code point, which matches `List Char` exactly (Lean's
built-in `String` positions are UTF-8 byte offsets and do not).
-/

/-- Python strings, by code point. -/
abbrev Str := List Char

/-- Python's lexicographic string comparison `a < b` (by code point; a
proper prefix is smaller). -/
def strLt : Str → Str → Bool
  | [], [] => false
  | [], _ :: _ => true
  | _ :: _, [] => false
  | a :: as, b :: bs => if a < b then true else if a = b then strLt as bs else false

/-- Python's `str.split(sep)` for a one-character separator: consecutive
separators produce empty fields, and the empty string splits to `[""]`. -/
def pySplit (c : Char) : Str → List Str
  | [] => [[]]
  | x :: xs =>
    if x = c then [] :: pySplit c xs
    else
      match pySplit c xs with
      | h :: t => (x :: h) :: t
      | [] => [[x]]

/-- `os.path.splitext(s)[0]`: everything before the last dot, or the whole
string when it has no dot (the identifiers fed to it never start with a
dot, so the hidden-file special case of `splitext` never fires). -/
def splitextRoot (s : Str) : Str :=
  if '.' ∈ s then (s.reverse.dropWhile (fun ch => ch ≠ '.')).tail.reverse
  else s

/-- Python's `needle in haystack` substring test. -/
def isSubstr (needle hay : Str) : Bool :=
  (List.range (hay.length + 1)).any (fun i => needle.isPrefixOf (hay.drop i))

/-- A naive `datetime.datetime` value (the scripts only ever compare and
construct naive datetimes; time zones never influence the claims). -/
structure PyDateTime where
  year : Nat
  month : Nat
  day : Nat
  hour : Nat
  minute : Nat
  second : Nat
deriving DecidableEq, Repr

/-- Two-digit decimal field. -/
def digits2 (a b : Char) : Option Nat :=
  if a.isDigit ∧ b.isDigit then some (10 * (a.toNat - 48) + (b.toNat - 48)) else none

/-- Four-digit decimal field. -/
def digits4 (a b c d : Char) : Option Nat :=
  if a.isDigit ∧ b.isDigit ∧ c.isDigit ∧ d.isDigit then
    some (1000 * (a.toNat - 48) + 100 * (b.toNat - 48) + 10 * (c.toNat - 48) + (d.toNat - 48))
  else none

/-- Range checks performed by `datetime.datetime` construction (calendar
day-of-month subtleties are immaterial to every claim). -/
def dtValid (mo d h mi s : Nat) : Bool :=
  1 ≤ mo && mo ≤ 12 && 1 ≤ d && d ≤ 31 && h ≤ 23 && mi ≤ 59 && s ≤ 59

/-- Models Python 3.11's `datetime.datetime.fromisoformat` on the forms the
scripts feed it: extended `YYYY-MM-DD`, extended `YYYY-MM-DDTHH:MM:SS`, and
basic `YYYYMMDDTHHMMSS` with an optional trailing `Z`.  Returns `none`
exactly where Python raises `ValueError`. -/
def parseIso : Str → Option PyDateTime
  | [y1, y2, y3, y4, '-', m1, m2, '-', d1, d2] => do
    let y ← digits4 y1 y2 y3 y4
    let mo ← digits2 m1 m2
    let d ← digits2 d1 d2
    if dtValid mo d 0 0 0 then some ⟨y, mo, d, 0, 0, 0⟩ else none
  | [y1, y2, y3, y4, '-', m1, m2, '-', d1, d2, 'T', h1, h2, ':', mi1, mi2, ':', s1, s2] => do
    let y ← digits4 y1 y2 y3 y4
    let mo ← digits2 m1 m2
    let d ← digits2 d1 d2
    let h ← digits2 h1 h2
    let mi ← digits2 mi1 mi2
    let s ← digits2 s1 s2
    if dtValid mo d h mi s then some ⟨y, mo, d, h, mi, s⟩ else none
  | [y1, y2, y3, y4, m1, m2, d1, d2, 'T', h1, h2, mi1, mi2, s1, s2] => do
    let y ← digits4 y1 y2 y3 y4
    let mo ← digits2 m1 m2
    let d ← digits2 d1 d2
    let h ← digits2 h1 h2
    let mi ← digits2 mi1 mi2
    let s ← digits2 s1 s2
    if dtValid mo d h mi s then some ⟨y, mo, d, h, mi, s⟩ else none
  | [y1, y2, y3, y4, m1, m2, d1, d2, 'T', h1, h2, mi1, mi2, s1, s2, 'Z'] => do
    let y ← digits4 y1 y2 y3 y4
    let mo ← digits2 m1 m2
    let d ← digits2 d1 d2
    let h ← digits2 h1 h2
    let mi ← digits2 mi1 mi2
    let s ← digits2 s1 s2
    if dtValid mo d h mi s then some ⟨y, mo, d, h, mi, s⟩ else none
  | _ => none

instance {ε α : Type} [DecidableEq ε] [DecidableEq α] : DecidableEq (Except ε α) := fun x y =>
  match x, y with
  | Except.ok a, Except.ok b =>
    if h : a = b then isTrue (by rw [h]) else isFalse (fun hc => by cases hc; exact h rfl)
  | Except.error a, Except.error b =>
    if h : a = b then isTrue (by rw [h]) else isFalse (fun hc => by cases hc; exact h rfl)
  | Except.ok _, Except.error _ => isFalse (fun hc => by cases hc)
  | Except.error _, Except.ok _ => isFalse (fun hc => by cases hc)

/-- The dynamically-typed values `normalize_to_datetime` can receive: a
`datetime.datetime`, a `datetime.date`, a string, `None`, or a value of any
other type (represented by an integer, as in the repository's test
`normalize_to_datetime(12345)`). -/
inductive PyVal where
  | dt (d : PyDateTime)
  | date (year month day : Nat)
  | str (s : Str)
  | noneV
  | intV (n : Int)
deriving DecidableEq, Repr

/-- `normalize_to_datetime` (dswx_hls_duplicate_analysis.py:102-150).
`Except.error ()` models the raised `ValueError`; the result is
`Option PyDateTime` because the `None` branch returns `None` unchanged. -/
def normalizeToDatetime : PyVal → Except Unit (Option PyDateTime)
  | PyVal.dt d => Except.ok (some d)
  | PyVal.date y mo d => Except.ok (some ⟨y, mo, d, 0, 0, 0⟩)
  | PyVal.str s =>
    match parseIso s with
    | some d => Except.ok (some d)
    | none => Except.error ()
  | PyVal.noneV => Except.ok none
  | PyVal.intV _ => Except.error ()

example : parseIso "2025-01-02".toList = some ⟨2025, 1, 2, 0, 0, 0⟩ := by decide
example : parseIso "2025-01-02T03:04:05".toList = some ⟨2025, 1, 2, 3, 4, 5⟩ := by decide
example : parseIso "20251113T173736Z".toList = some ⟨2025, 11, 13, 17, 37, 36⟩ := by decide
example : parseIso "not-a-date".toList = none := by decide
example : pySplit '_' "a__b".toList = ["a".toList, "".toList, "b".toList] := by decide
example : strLt "abc".toList "abd".toList = true := by decide
example : strLt "ab".toList "abc".toList = true := by decide
example : splitextRoot "HLS.L30.T41WPU.2025121T071630.v2.0.B02.tif".toList
    = "HLS.L30.T41WPU.2025121T071630.v2.0.B02".toList := by decide
example : splitextRoot "S1A_IW_SLC__1SDV".toList = "S1A_IW_SLC__1SDV".toList := by decide
example : isSubstr "SLC".toList "S1A_IW_SLC__1SDV".toList = true := by decide
example : isSubstr "HLS".toList "S1A_IW_SLC__1SDV".toList = false := by decide

/-! ## CMR catalog records and the search-after pagination loop -/

/-- The fields of one CMR UMM-JSON granule record that the scripts read
(`meta.native-id`, `meta.revision-id`, `meta.revision-date`,
`umm.Platforms[0].ShortName`, `umm.InputGranules`). -/
structure CmrGranule where
  nativeId : Str
  revisionId : Nat
  revisionDate : Str
  platform : Str
  inputGranules : List Str
deriving DecidableEq, Repr

/-- One CMR response page: the `items` array and the `CMR-Search-After`
response header (absent on the final page). -/
structure CmrPage where
  items : List CmrGranule
  cursor : Option Str
deriving DecidableEq, Repr

/-- The manual search-after loop of `query_cmr_for_products`
(dswx_hls_duplicate_analysis.py:327-346).  The catalog is a function from
the presented `CMR-Search-After` header to a response; `Except.error`
models a response on which `raise_for_status` raises (the exception
propagates and the accumulated results are lost).  Returns the number of
requests issued together with the concatenated results.  `fuel` bounds
the iteration count of the `while True` loop (each claim supplies enough
fuel for its page sequence). -/
def queryCmrLoop (server : Option Str → Except Unit CmrPage) :
    Nat → Option Str → List CmrGranule → Except Unit (Nat × List CmrGranule)
  | 0, _, acc => Except.ok (0, acc)
  | fuel + 1, cursor, acc =>
    match server cursor with
    | Except.error e => Except.error e
    | Except.ok page =>
      if page.items = [] then Except.ok (1, acc)
      else
        match page.cursor with
        | none => Except.ok (1, acc ++ page.items)
        | some c =>
          match queryCmrLoop server fuel (some c) (acc ++ page.items) with
          | Except.error e => Except.error e
          | Except.ok (n, res) => Except.ok (n + 1, res)

/-- `Serves server c pages`: starting from cursor `c`, the catalog answers
the loop's requests with exactly the chain `pages`, each request carrying
the cursor token returned by the previous response, and the final page
carrying no cursor token. -/
inductive Serves (server : Option Str → Except Unit CmrPage) : Option Str → List CmrPage → Prop
  | last (c : Option Str) (p : CmrPage) :
      server c = Except.ok p → p.cursor = none → Serves server c [p]
  | step (c : Option Str) (c2 : Str) (p : CmrPage) (ps : List CmrPage) :
      server c = Except.ok p → p.cursor = some c2 → Serves server (some c2) ps →
      Serves server c (p :: ps)

/-- Core pagination lemma: when the catalog serves the chain `pages` (all
with nonempty `items`), the loop issues exactly one request per page and
returns the pages' items concatenated in page order after the accumulator. -/
theorem queryCmrLoop_serves (server : Option Str → Except Unit CmrPage)
    (c0 : Option Str) (pages : List CmrPage) (fuel : Nat) (acc : List CmrGranule)
    (hserves : Serves server c0 pages)
    (hne : ∀ p ∈ pages, p.items ≠ [])
    (hfuel : pages.length ≤ fuel) :
    queryCmrLoop server fuel c0 acc =
      Except.ok (pages.length, acc ++ (pages.map (fun p => p.items)).flatten) := by
  induction hserves generalizing fuel acc with
  | last c p hsrv hcur =>
    cases fuel with
    | zero => simp at hfuel
    | succ f =>
      have hpne : p.items ≠ [] := hne p (by simp)
      simp [queryCmrLoop, hsrv, hpne, hcur]
  | step c c2 p ps hsrv hcur _hrest ih =>
    cases fuel with
    | zero => simp at hfuel
    | succ f =>
      have hpne : p.items ≠ [] := hne p (by simp)
      have hfuel2 : ps.length ≤ f := by
        simpa using Nat.succ_le_succ_iff.mp (by simpa using hfuel)
      have hne2 : ∀ q ∈ ps, q.items ≠ [] := fun q hq => hne q (by simp [hq])
      simp only [queryCmrLoop, hsrv, hpne, hcur, ih f (acc ++ p.items) hne2 hfuel2]
      simp

/-! ## s1_to_rtc: query_cmr_for_rtc retry loop -/

/-- The fields of one RTC-S1 CMR entry that `query_cmr_for_rtc` reads:
`meta.native-id` and `umm.InputGranules` (via `_extract_input_granules`). -/
structure RtcEntry where
  nativeId : Str
  inputGranules : List Str
deriving DecidableEq, Repr

/-- The retry loop body of `S1ToRTCMapper.query_cmr_for_rtc`
(s1_to_rtc.py:123-151): each list element is one attempt's outcome —
`Except.ok entries` for a successful HTTP response (whose entries are then
filtered to those listing the S1 granule id among their `InputGranules`),
`Except.error ()` for a `RequestException`.  A failed attempt falls through
to the next one; when the list of allowed attempts is exhausted the
function logs the error and returns the empty list. -/
def rtcRetry (s1Id : Str) : List (Except Unit (List RtcEntry)) → List RtcEntry
  | [] => []
  | Except.ok entries :: _ =>
    entries.filter (fun e => decide (s1Id ∈ e.inputGranules))
  | Except.error _ :: rest => rtcRetry s1Id rest

/-- `query_cmr_for_rtc` with `max_attempts = 3`: only the first three
attempt outcomes are ever consumed. -/
def queryCmrForRtc (attempts : List (Except Unit (List RtcEntry))) (s1Id : Str) : List RtcEntry :=
  rtcRetry s1Id (attempts.take 3)

/-! ## query_cmr_for_products: temporal / revision filter construction -/

/-- `datetime.datetime(d.year, d.month, d.day, 23, 59, 59)` — the inferred
end of the calendar day of `d`. -/
def endOfDay (d : PyDateTime) : PyDateTime :=
  ⟨d.year, d.month, d.day, 23, 59, 59⟩

/-- The filter-construction prologue of `query_cmr_for_products`
(dswx_hls_duplicate_analysis.py:270-309), after the `@process_arg`
decorators have normalized the four arguments to datetimes.  Returns the
applied (temporal window, revision window) pair; a window is applied only
when both of its bounds are present.  `Except.error ()` models the
`ValueError` raised when no datetime at all is supplied. -/
def queryCmrFilters (sensorFrom sensorTo revisionFrom revisionTo : Option PyDateTime) :
    Except Unit (Option (PyDateTime × PyDateTime) × Option (PyDateTime × PyDateTime)) :=
  if sensorFrom = none ∧ sensorTo = none ∧ revisionFrom = none ∧ revisionTo = none then
    Except.error ()
  else
    let sensorTo2 :=
      match sensorFrom, sensorTo with
      | some d, none => some (endOfDay d)
      | _, _ => sensorTo
    let revisionTo2 :=
      match revisionFrom, revisionTo with
      | some d, none => some (endOfDay d)
      | _, _ => revisionTo
    let temporalWindow :=
      match sensorFrom, sensorTo2 with
      | some a, some b => some (a, b)
      | _, _ => none
    let revisionWindow :=
      match revisionFrom, revisionTo2 with
      | some a, some b => some (a, b)
      | _, _ => none
    Except.ok (temporalWindow, revisionWindow)

/-! ## opera_daily_products_query: trailing-zero trim and statistics -/

/-- The scan of `remove_trailing_zeros_and_last_entry`'s `for`/`else` over
the reversed list: drop leading zeros and the first nonzero element; if no
nonzero element exists, the `else` branch yields the empty list. -/
def dropThroughFirstNonzero : List Int → List Int
  | [] => []
  | x :: rest => if x ≠ 0 then rest else dropThroughFirstNonzero rest

/-- `remove_trailing_zeros_and_last_entry`
(opera_daily_products_query.py:63-88). -/
def removeTrailingZerosAndLastEntry (lst : List Int) : List Int :=
  (dropThroughFirstNonzero lst.reverse).reverse

/-- `get_statistics` (opera_daily_products_query.py:97-125).  The mean and
the population standard deviation of `numpy` are modelled over `Rat`;
`sqrtFn` stands for the floating-point square root inside `np.std` (the
empty-sample guard, which the claims are about, does not depend on it). -/
def getStatistics (sqrtFn : Rat → Rat) (sampleValues : List Int) (sigmaMultiplier : Rat) :
    List Int × Rat × (Rat × Rat) :=
  let sample := removeTrailingZerosAndLastEntry sampleValues
  if sample = [] then (sample, 0, (0, 0))
  else
    let n : Rat := (sample.length : Rat)
    let mean : Rat := ((sample.map (fun x => (x : Rat))).sum) / n
    let variance : Rat := ((sample.map (fun x => ((x : Rat) - mean) ^ 2)).sum) / n
    let stdDev := sqrtFn variance
    (sample, mean, (mean - sigmaMultiplier * stdDev, mean + sigmaMultiplier * stdDev))

example : removeTrailingZerosAndLastEntry [1, 2, 0, 0] = [1] := by decide
example : removeTrailingZerosAndLastEntry [0, 0, 0] = [] := by decide
example : removeTrailingZerosAndLastEntry [] = [] := by decide
example : removeTrailingZerosAndLastEntry [5, 7] = [5] := by decide

/-! ## HLS identifier pattern and the DSWx input-granule extraction -/

/-- `HLS_SUFFIX` stripping: `re.sub(r'[.](B[A-Za-z0-9]{2}|Fmask)[.]tif$', '', s)`
(dswx_hls_duplicate_analysis.py:61).  The pattern is end-anchored, so at
most one occurrence is removed. -/
def stripHlsSuffix (s : Str) : Str :=
  match s.reverse with
  | 'f' :: 'i' :: 't' :: '.' :: 'k' :: 's' :: 'a' :: 'm' :: 'F' :: '.' :: r => r.reverse
  | 'f' :: 'i' :: 't' :: '.' :: x :: y :: 'B' :: '.' :: r =>
    if x.isAlphanum ∧ y.isAlphanum then r.reverse else s
  | _ => s

/-- `HLS_PATTERN.match` (dswx_hls_duplicate_analysis.py:59-60): anchored
match of `HLS[.][SL]30[.]T[^\W_]{5}[.]\d{7}T\d{6}[.]v\d+[.]\d+` at the
start of the string; returns the matched text (regex group 0, which the
`id` group makes equal to the whole match).  The fixed-width fields admit
no backtracking, so the greedy digit runs of the version are maximal. -/
def hlsMatch : Str → Option Str
  | 'H' :: 'L' :: 'S' :: '.' :: src :: '3' :: '0' :: '.' :: 'T' ::
      t1 :: t2 :: t3 :: t4 :: t5 :: '.' :: rest =>
    if (src = 'S' ∨ src = 'L') ∧ t1.isAlphanum ∧ t2.isAlphanum ∧ t3.isAlphanum ∧
        t4.isAlphanum ∧ t5.isAlphanum then
      match rest with
      | a1 :: a2 :: a3 :: a4 :: a5 :: a6 :: a7 :: 'T' ::
          b1 :: b2 :: b3 :: b4 :: b5 :: b6 :: '.' :: 'v' :: rest2 =>
        if a1.isDigit ∧ a2.isDigit ∧ a3.isDigit ∧ a4.isDigit ∧ a5.isDigit ∧ a6.isDigit ∧
            a7.isDigit ∧ b1.isDigit ∧ b2.isDigit ∧ b3.isDigit ∧ b4.isDigit ∧ b5.isDigit ∧
            b6.isDigit then
          let ds1 := rest2.takeWhile Char.isDigit
          let rest3 := rest2.dropWhile Char.isDigit
          if ds1 = [] then none
          else
            match rest3 with
            | '.' :: rest4 =>
              let ds2 := rest4.takeWhile Char.isDigit
              if ds2 = [] then none
              else
                some (['H', 'L', 'S', '.', src, '3', '0', '.', 'T', t1, t2, t3, t4, t5, '.',
                       a1, a2, a3, a4, a5, a6, a7, 'T', b1, b2, b3, b4, b5, b6, '.', 'v'] ++
                      ds1 ++ '.' :: ds2)
            | _ => none
        else none
      | _ => none
    else none
  | _ => none

/-- `stripped.split('/')[-1]`. -/
def lastPathComponent (s : Str) : Str :=
  (pySplit '/' s).getLastD []

/-- `get_hls_granule_from_dswx_input_list`
(dswx_hls_duplicate_analysis.py:371-379): scan the output's
`InputGranules` in order and return the matched HLS id of the first entry
whose suffix-stripped basename matches `HLS_PATTERN`.  `none` models the
`TypeError`/`NameError` the Python raises when no entry matches (it then
evaluates `tmp[0]` with `tmp` either `None` or unbound). -/
def getHlsGranuleFromDswxInputList : List Str → Option Str
  | [] => none
  | i :: rest =>
    match hlsMatch (lastPathComponent (stripHlsSuffix i)) with
    | some m => some m
    | none => getHlsGranuleFromDswxInputList rest

/-- `extract_production_datetime` (dswx_hls_duplicate_analysis.py:653-673).
`Except.error ()` models the `IndexError` on identifiers with too few
`_`-separated fields and the `ValueError` from `normalize_to_datetime`;
for product types other than `DSWx-HLS` the Python passes `None` through
`normalize_to_datetime`, which returns `None`. -/
def extractProductionDatetime (granuleId : Str) : Except Unit (Option PyDateTime) :=
  let parts := pySplit '_' granuleId
  match parts[2]? with
  | none => Except.error ()
  | some prodType =>
    if prodType = "DSWx-HLS".toList then
      match parts[5]? with
      | none => Except.error ()
      | some p5 => normalizeToDatetime (PyVal.str p5)
    else normalizeToDatetime PyVal.noneV

/-- `remove_production_datetime_from_granule_id`
(dswx_hls_duplicate_analysis.py:676-688): for `DSWx-HLS` identifiers the
production timestamp occupies code points 42-57, and the function returns
`granule_id[:42] + granule_id[58:]`; for other product types it returns
`None`.  `Except.error ()` models the `IndexError` on identifiers with
fewer than three `_`-separated fields. -/
def removeProductionDatetimeFromGranuleId (granuleId : Str) : Except Unit (Option Str) :=
  let parts := pySplit '_' granuleId
  match parts[2]? with
  | none => Except.error ()
  | some prodType =>
    if prodType = "DSWx-HLS".toList then
      Except.ok (some (granuleId.take 42 ++ granuleId.drop 58))
    else Except.ok none

example :
    hlsMatch "HLS.S30.T55HFC.2025111T001109.v2.0".toList
      = some "HLS.S30.T55HFC.2025111T001109.v2.0".toList := by decide
example :
    stripHlsSuffix "HLS.L30.T41WPU.2025121T071630.v2.0.B02.tif".toList
      = "HLS.L30.T41WPU.2025121T071630.v2.0".toList := by decide
example :
    getHlsGranuleFromDswxInputList ["junk.txt".toList,
        "HLS.S30.T55HFC.2025111T001109.v2.0.Fmask.tif".toList]
      = some "HLS.S30.T55HFC.2025111T001109.v2.0".toList := by decide
example :
    extractProductionDatetime
        "OPERA_L3_DSWx-HLS_T56MQV_20251107T000729Z_20251113T173736Z_S2B_30_v1.1".toList
      = Except.ok (some ⟨2025, 11, 13, 17, 37, 36⟩) := by decide
example :
    removeProductionDatetimeFromGranuleId
        "OPERA_L3_DSWx-HLS_T56MQV_20251107T000729Z_20251113T173736Z_S2B_30_v1.1".toList
      = Except.ok (some "OPERA_L3_DSWx-HLS_T56MQV_20251107T000729Z__S2B_30_v1.1".toList) := by
  decide

/-! ## map_inputs_to_output: provenance rows, orphans, missing inputs -/

/-- Evaluate `f` on every element in order; `none` as soon as one
evaluation fails (models a Python list comprehension whose body can
raise). -/
def liftOpt (f : α → Option β) : List α → Option (List β)
  | [] => some []
  | a :: l =>
    match f a, liftOpt f l with
    | some b, some bs => some (b :: bs)
    | _, _ => none

/-- Lookup in the dictionary `{x['meta']['native-id']: x for x in l}`:
on duplicate keys the last record wins, as in a Python dict
comprehension. -/
def lookupNative (l : List CmrGranule) (k : Str) : Option CmrGranule :=
  l.reverse.find? (fun g => decide (g.nativeId = k))

/-- One row of the DataFrame built by `map_inputs_to_output`
(columns `DSWx_ID`, `DSWx_RevDate`, `InputProduct`, `InputRevId`,
`InputRevDate`, `InputPlatform`, `DSWx_Granule_Count`,
`DSWx_ProductionDateTime`, `DSWx_ID_no_pdt`). -/
structure ProvRow where
  dswxId : Str
  dswxRevDate : Str
  inputProduct : Str
  inputRevId : Option Nat
  inputRevDate : Option Str
  inputPlatform : Option Str
  granuleCount : Nat
  productionDT : Option PyDateTime
  idNoPdt : Option Str
deriving DecidableEq, Repr

/-- One row of the orphan DataFrame (`HLS_GranuleId`, `HLS_RevId`,
`HLS_RevDate`, `HLS_Platform`). -/
structure OrphanRow where
  granuleId : Str
  revId : Nat
  revDate : Str
  platform : Str
deriving DecidableEq, Repr

/-- `map_inputs_to_output` (dswx_hls_duplicate_analysis.py:383-478).
Returns the mapping rows, the orphan rows, and the missing-input ids;
`none` models the run failing with an exception, which happens exactly
when the input-product extraction, the production-datetime extraction or
the id-stripping raises for some output.  The orphan ids come from the
Python expression `set(dict keys) - set(chosen)`, whose iteration order
is unspecified; they are listed here in dictionary insertion order and
the claims read them as a set.  The unsorted row order is faithful: the
script calls `sort_values` without using its result. -/
def mapInputsToOutput (dswxResults hlsl30Results hlss30Results : List CmrGranule) :
    Option (List ProvRow × List OrphanRow × List Str) :=
  let hlsAll := hlsl30Results ++ hlss30Results
  match liftOpt (fun g => getHlsGranuleFromDswxInputList g.inputGranules) dswxResults,
        liftOpt (fun g => (extractProductionDatetime g.nativeId).toOption) dswxResults,
        liftOpt (fun g => (removeProductionDatetimeFromGranuleId g.nativeId).toOption)
          dswxResults with
  | some inputProducts, some pdts, some noPdts =>
    let rows := (dswxResults.zip (inputProducts.zip (pdts.zip noPdts))).map
      (fun gi =>
        { dswxId := gi.1.nativeId
          dswxRevDate := gi.1.revisionDate
          inputProduct := gi.2.1
          inputRevId := (lookupNative hlsAll gi.2.1).map (fun h => h.revisionId)
          inputRevDate := (lookupNative hlsAll gi.2.1).map (fun h => h.revisionDate)
          inputPlatform := (lookupNative hlsAll gi.2.1).map (fun h => h.platform)
          granuleCount := inputProducts.count gi.2.1
          productionDT := gi.2.2.1
          idNoPdt := gi.2.2.2 })
    let keys := (hlsAll.map (fun g => g.nativeId)).eraseDups
    let orphanIds := keys.filter (fun k => decide (k ∉ inputProducts))
    let orphans := orphanIds.filterMap (fun k =>
      (lookupNative hlsAll k).map (fun h => OrphanRow.mk k h.revisionId h.revisionDate h.platform))
    let missing := inputProducts.filter (fun x => decide (lookupNative hlsAll x = none))
    some (rows, orphans, missing)
  | _, _, _ => none

/-! ## latency_graph: get_latest_input_granule -/

/-- The loop state of `get_latest_input_granule`
(latency_graph.py:118-121): `latest_end_time`, `latest_gran_id`,
`latest_begin_time` and `slc_add`, all initialized to the empty string. -/
structure SelSt where
  latestEnd : Str
  latestId : Str
  latestBegin : Str
  slcAdd : Str
deriving DecidableEq, Repr

/-- One iteration of the `for gran in input_gran_list` loop of
`get_latest_input_granule` (latency_graph.py:122-147) for a fixed
`prod_type`.  Entries whose field count fails the guard are skipped
(`continue`); otherwise the branch reads the family-specific begin/end
time fields and the candidate replaces the current best exactly when its
end time is strictly greater in Python string order.  The out-of-range
indexing Python would perform on a `CSLC-S1`/`RTC-S1` entry with exactly
six `_`-fields, or a `DSWx-S1` entry with exactly five, is modelled by
the empty-string default (no claim exercises those entries). -/
def selStep (prodType : Str) (st : SelSt) (gran : Str) : SelSt :=
  if prodType = "CSLC-S1".toList ∨ prodType = "RTC-S1".toList then
    let parts := pySplit '_' gran
    if parts.length < 6 then st
    else
      let endT := parts.getD 6 []
      let beginT := parts.getD 5 []
      let st1 := { st with slcAdd := "-SLC".toList }
      if strLt st1.latestEnd endT then
        { st1 with latestEnd := endT, latestId := gran, latestBegin := beginT }
      else st1
  else if prodType = "DSWx-HLS".toList then
    let parts := pySplit '.' gran
    if parts.length < 6 then st
    else if ¬ isSubstr "HLS".toList gran then st
    else
      let endT := parts.getD 3 []
      if strLt st.latestEnd endT then
        { st with latestEnd := endT, latestId := gran, latestBegin := endT }
      else st
  else if prodType = "DSWx-S1".toList then
    let parts := pySplit '_' gran
    if parts.length < 5 then st
    else
      let endT := parts.getD 5 []
      let beginT := parts.getD 4 []
      if strLt st.latestEnd endT then
        { st with latestEnd := endT, latestId := gran, latestBegin := beginT }
      else st
  else st

/-- The full candidate loop of `get_latest_input_granule`. -/
def getLatestLoop (inputGranList : List Str) (prodType : Str) : SelSt :=
  inputGranList.foldl (selStep prodType) ⟨[], [], [], []⟩

/-- The suffix post-processing of `get_latest_input_granule`
(latency_graph.py:148-153): strip one extension when the winner contains
a dot (two when it is an HLS file name), then append `slc_add` when the
winner mentions `SLC`. -/
def getLatestPost (st : SelSt) : Str :=
  let id1 :=
    if '.' ∈ st.latestId then
      let r := splitextRoot st.latestId
      if isSubstr "HLS".toList r then splitextRoot r else r
    else st.latestId
  if isSubstr "SLC".toList id1 then id1 ++ st.slcAdd else id1

/-- `get_latest_input_granule` (latency_graph.py:93-156): returns
`(latest_gran_id, latest_end_time, latest_begin_time)`. -/
def getLatestInputGranule (inputGranList : List Str) (prodType : Str) : Str × Str × Str :=
  let st := getLatestLoop inputGranList prodType
  (getLatestPost st, st.latestEnd, st.latestBegin)

example :
    getLatestInputGranule
      ["HLS.L30.T41WPU.2025121T071630.v2.0.B02.tif".toList,
       "HLS.L30.T41WPU.2025122T071630.v2.0.B03.tif".toList] "DSWx-HLS".toList
    = ("HLS.L30.T41WPU.2025122T071630.v2.0".toList,
       "2025122T071630".toList, "2025122T071630".toList) := by decide
example :
    getLatestInputGranule
      ["S1A_IW_SLC__1SDV_20250408T191358_20250408T191425_058669_0743B7_0ADC".toList]
      "CSLC-S1".toList
    = ("S1A_IW_SLC__1SDV_20250408T191358_20250408T191425_058669_0743B7_0ADC-SLC".toList,
       "20250408T191425".toList, "20250408T191358".toList) := by decide

/-! ## Claim theorems -/

/-- A two-page catalog session returning the same record (same
`native-id`, same `revision-id`) on both pages. -/
def dupGranule : CmrGranule :=
  ⟨"G1".toList, 1, "2025-01-01T00:00:00.000Z".toList, "LANDSAT-8".toList, []⟩

/-- Server for the duplicate-page session: the first request returns
`[dupGranule]` with cursor `c1`, the request carrying `c1` returns
`[dupGranule]` again with no cursor. -/
def c2Server : Option Str → Except Unit CmrPage := fun c =>
  if c = some "c1".toList then Except.ok ⟨[dupGranule], none⟩
  else if c = none then Except.ok ⟨[dupGranule], some "c1".toList⟩
  else Except.ok ⟨[], none⟩

/-- C1: for every chain of catalog pages (each carrying the cursor the
previous response returned, the last carrying none), the loop issues
exactly one request per page and returns the pages' items concatenated in
page order; and a response with an empty `items` page stops the loop
immediately.  The concrete three-page instance with cursors
`["c1", "c2", None]` is the witness below. -/
theorem claim_C1 :
    (∀ (server : Option Str → Except Unit CmrPage) (c0 : Option Str)
        (pages : List CmrPage) (fuel : Nat),
      Serves server c0 pages → (∀ p ∈ pages, p.items ≠ []) → pages.length ≤ fuel →
      queryCmrLoop server fuel c0 [] =
        Except.ok (pages.length, (pages.map (fun p => p.items)).flatten)) ∧
    (∀ (server : Option Str → Except Unit CmrPage) (c : Option Str)
        (page : CmrPage) (acc : List CmrGranule) (fuel : Nat),
      server c = Except.ok page → page.items = [] →
      queryCmrLoop server (fuel + 1) c acc = Except.ok (1, acc)) := by
  constructor
  · intro server c0 pages fuel hserves hne hfuel
    simpa using queryCmrLoop_serves server c0 pages fuel [] hserves hne hfuel
  · intro server c page acc fuel hsrv hempty
    simp [queryCmrLoop, hsrv, hempty]

/-- The three-page session of the C1 claim: pages with cursors
`c1`, `c2`, none. -/
def c1Page1 : CmrPage := ⟨[⟨"A1".toList, 1, [], [], []⟩], some "c1".toList⟩

def c1Page2 : CmrPage := ⟨[⟨"A2".toList, 1, [], [], []⟩], some "c2".toList⟩

def c1Page3 : CmrPage := ⟨[⟨"A3".toList, 1, [], [], []⟩], none⟩

def c1Server : Option Str → Except Unit CmrPage := fun c =>
  if c = none then Except.ok c1Page1
  else if c = some "c1".toList then Except.ok c1Page2
  else if c = some "c2".toList then Except.ok c1Page3
  else Except.ok ⟨[], none⟩

/-- Witness for C1: on the `["c1", "c2", None]` server, exactly 3 requests
are issued and the result is the three pages' items in page order. -/
theorem claim_C1_witness :
    queryCmrLoop c1Server 3 none [] =
      Except.ok (3, [⟨"A1".toList, 1, [], [], []⟩, ⟨"A2".toList, 1, [], [], []⟩,
                     ⟨"A3".toList, 1, [], [], []⟩]) := by
  have h := claim_C1.1 c1Server none [c1Page1, c1Page2, c1Page3] 3
    (Serves.step none "c1".toList c1Page1 [c1Page2, c1Page3] (by decide) (by decide)
      (Serves.step (some "c1".toList) "c2".toList c1Page2 [c1Page3] (by decide) (by decide)
        (Serves.last (some "c2".toList) c1Page3 (by decide) (by decide))))
    (by decide) (by decide)
  simpa [c1Page1, c1Page2, c1Page3] using h

/-- C2 counterexample: `query_cmr_for_products` performs no deduplication.
On a session whose two pages both contain the record `dupGranule`
(a repeated `native-id` with an equal `revision-id`), the repeated record
is not discarded: it appears twice in the returned list. -/
theorem counterexample_C2 :
    queryCmrLoop c2Server 10 none [] = Except.ok (2, [dupGranule, dupGranule]) := by decide

/-- C2 amended: the paginated query applies no deduplication at all — every
record appears in the returned list exactly as many times as the served
pages contain it, regardless of repeated `native_id`s or their
`revision_id`s. -/
theorem claim_C2_amended :
    ∀ (server : Option Str → Except Unit CmrPage) (c0 : Option Str)
      (pages : List CmrPage) (fuel : Nat) (g : CmrGranule),
      Serves server c0 pages → (∀ p ∈ pages, p.items ≠ []) → pages.length ≤ fuel →
      (queryCmrLoop server fuel c0 []).map (fun r => r.2.count g) =
        Except.ok ((pages.map (fun p => p.items)).flatten.count g) := by
  intro server c0 pages fuel g hserves hne hfuel
  rw [queryCmrLoop_serves server c0 pages fuel [] hserves hne hfuel]
  simp [Except.map]

/-- Witness for the amended C2 on the duplicate-page session: the repeated
record is counted twice. -/
theorem claim_C2_amended_witness :
    (queryCmrLoop c2Server 10 none []).map (fun r => r.2.count dupGranule) = Except.ok 2 := by
  have h := claim_C2_amended c2Server none
      [⟨[dupGranule], some "c1".toList⟩, ⟨[dupGranule], none⟩] 10 dupGranule
      (Serves.step none "c1".toList ⟨[dupGranule], some "c1".toList⟩ [⟨[dupGranule], none⟩]
        (by decide) (by decide)
        (Serves.last (some "c1".toList) ⟨[dupGranule], none⟩ (by decide) (by decide)))
      (by decide) (by decide)
  simpa using h

/-- Server for the C3 counterexample: the first page succeeds with one
record and a cursor, every later request fails with an HTTP error. -/
def c3Server : Option Str → Except Unit CmrPage := fun c =>
  if c = none then Except.ok ⟨[dupGranule], some "c1".toList⟩
  else Except.error ()

/-- C3 counterexample.  (1)-(2): after its three attempts are exhausted,
`query_cmr_for_rtc` returns the plain empty list — exactly the value a
successful query with no matching entries returns, so the result carries
no explicit error marker and is indistinguishable in-band from an empty
success (the error is only printed).  (3): the paginated
`query_cmr_for_products` loop performs no retry at all — the first
transient failure propagates as an exception and the partial page already
accumulated is lost rather than returned. -/
theorem counterexample_C3 :
    queryCmrForRtc [Except.error (), Except.error (), Except.error ()]
        "S1A_IW_SLC__1SDV_20220310T121213".toList = [] ∧
    queryCmrForRtc [Except.ok [], Except.ok [], Except.ok []]
        "S1A_IW_SLC__1SDV_20220310T121213".toList = [] ∧
    queryCmrLoop c3Server 10 none [] = Except.error () := by decide

/-- C3 amended: `query_cmr_for_rtc` retries the same request up to 3
attempts (with a fixed 0.05 s delay, outside this model); a success at any
of the three attempts returns that response's entries filtered to those
listing the S1 granule, while exhaustion of all three attempts returns the
empty list with no in-band error marker.  The dswx paginated query
performs no retry: a failing response aborts the whole query and discards
the accumulated partial results. -/
theorem claim_C3_amended :
    (∀ (s1Id : Str) (entries : List RtcEntry) (rest : List (Except Unit (List RtcEntry))),
      queryCmrForRtc (Except.ok entries :: rest) s1Id =
        entries.filter (fun e => decide (s1Id ∈ e.inputGranules))) ∧
    (∀ (s1Id : Str) (entries : List RtcEntry) (rest : List (Except Unit (List RtcEntry))),
      queryCmrForRtc (Except.error () :: Except.ok entries :: rest) s1Id =
        entries.filter (fun e => decide (s1Id ∈ e.inputGranules))) ∧
    (∀ (s1Id : Str) (entries : List RtcEntry) (rest : List (Except Unit (List RtcEntry))),
      queryCmrForRtc (Except.error () :: Except.error () :: Except.ok entries :: rest) s1Id =
        entries.filter (fun e => decide (s1Id ∈ e.inputGranules))) ∧
    (∀ (s1Id : Str) (rest : List (Except Unit (List RtcEntry))),
      queryCmrForRtc (Except.error () :: Except.error () :: Except.error () :: rest) s1Id = []) ∧
    (∀ (server : Option Str → Except Unit CmrPage) (fuel : Nat) (c : Option Str)
        (acc : List CmrGranule),
      server c = Except.error () → queryCmrLoop server (fuel + 1) c acc = Except.error ()) := by
  refine ⟨?_, ?_, ?_, ?_, ?_⟩
  · intro s1Id entries rest
    simp [queryCmrForRtc, rtcRetry, List.take]
  · intro s1Id entries rest
    simp [queryCmrForRtc, rtcRetry, List.take]
  · intro s1Id entries rest
    simp [queryCmrForRtc, rtcRetry, List.take]
  · intro s1Id rest
    simp [queryCmrForRtc, rtcRetry, List.take]
  · intro server fuel c acc hsrv
    simp [queryCmrLoop, hsrv]

/-- One RTC-S1 entry listing an S1 granule among its inputs. -/
def rtcEntry1 : RtcEntry :=
  ⟨"OPERA_L2_RTC-S1_T018-038556-IW3_20250505T233312Z_20250506T114007Z_S1A_30_v1.0".toList,
   ["S1A_IW_SLC__1SDV_20250506T143226_20250506T143253_059075_075429_E267".toList]⟩

/-- Witness for the amended C3: two failures followed by a success return
the successful attempt's matching entries; three failures return the empty
list; and the dswx loop propagates the very first failure. -/
theorem claim_C3_amended_witness :
    queryCmrForRtc [Except.error (), Except.error (), Except.ok [rtcEntry1]]
        "S1A_IW_SLC__1SDV_20250506T143226_20250506T143253_059075_075429_E267".toList
      = [rtcEntry1] ∧
    queryCmrForRtc [Except.error (), Except.error (), Except.error ()]
        "S1A_IW_SLC__1SDV_20250506T143226_20250506T143253_059075_075429_E267".toList = [] ∧
    queryCmrLoop c3Server 1 (some "c1".toList) [dupGranule] = Except.error () := by
  refine ⟨?_, ?_, ?_⟩
  · have h := claim_C3_amended.2.2.1
      "S1A_IW_SLC__1SDV_20250506T143226_20250506T143253_059075_075429_E267".toList
      [rtcEntry1] []
    rw [h]
    decide
  · exact claim_C3_amended.2.2.2.1
      "S1A_IW_SLC__1SDV_20250506T143226_20250506T143253_059075_075429_E267".toList []
  · exact claim_C3_amended.2.2.2.2 c3Server 0 (some "c1".toList) [dupGranule] (by decide)

/-- C8 counterexample: `normalize_to_datetime(None)` neither raises nor
returns an instant — the explicit `Case 4` branch passes `None` through
unchanged, so the function does return a non-instant result for an input
outside the documented accepted types. -/
theorem counterexample_C8 :
    normalizeToDatetime PyVal.noneV = Except.ok none ∧
    normalizeToDatetime PyVal.noneV ≠ Except.error () := by decide

/-- C8 amended: `normalize_to_datetime` returns an instant for an
already-typed instant (unchanged), for a date (promoted to midnight) and
for a string that parses as ISO-8601; it fails with `ValueError` for a
string that fails ISO-8601 parsing and for a value of any other type —
except `None`, which is passed through unchanged as `None` rather than
raising. -/
theorem claim_C8_amended :
    (∀ d, normalizeToDatetime (PyVal.dt d) = Except.ok (some d)) ∧
    (∀ y mo dd, normalizeToDatetime (PyVal.date y mo dd) =
      Except.ok (some ⟨y, mo, dd, 0, 0, 0⟩)) ∧
    (∀ s d, parseIso s = some d → normalizeToDatetime (PyVal.str s) = Except.ok (some d)) ∧
    (∀ s, parseIso s = none → normalizeToDatetime (PyVal.str s) = Except.error ()) ∧
    normalizeToDatetime PyVal.noneV = Except.ok none ∧
    (∀ n, normalizeToDatetime (PyVal.intV n) = Except.error ()) := by
  refine ⟨fun d => rfl, fun y mo dd => rfl, ?_, ?_, rfl, fun n => rfl⟩
  · intro s d h
    simp [normalizeToDatetime, h]
  · intro s h
    simp [normalizeToDatetime, h]

/-- Witness for the amended C8 at concrete inputs: a parsing string and a
non-parsing string. -/
theorem claim_C8_amended_witness :
    normalizeToDatetime (PyVal.str "2025-01-02T03:04:05".toList) =
      Except.ok (some ⟨2025, 1, 2, 3, 4, 5⟩) ∧
    normalizeToDatetime (PyVal.str "not-a-date".toList) = Except.error () := by
  constructor
  · exact claim_C8_amended.2.2.1 "2025-01-02T03:04:05".toList ⟨2025, 1, 2, 3, 4, 5⟩ (by decide)
  · exact claim_C8_amended.2.2.2.1 "not-a-date".toList (by decide)

/-- Scanning past an all-zero block leaves `dropThroughFirstNonzero`
looking at the remainder. -/
theorem dropThroughFirstNonzero_zeros (l rest : List Int) (h : ∀ z ∈ l, z = 0) :
    dropThroughFirstNonzero (l ++ rest) = dropThroughFirstNonzero rest := by
  induction l with
  | nil => rfl
  | cons x xs ih =>
    have hx : x = 0 := h x (by simp)
    have hxs : ∀ z ∈ xs, z = 0 := fun z hz => h z (by simp [hz])
    simp [dropThroughFirstNonzero, hx, ih hxs]

/-- C9: the trim policy removes all trailing zero samples and additionally
the first nonzero sample from the end — `[1,2,0,0]` trims to `[1]`,
`[0,0,0]` trims to `[]` — and on an empty trimmed sample `get_statistics`
returns zero mean and zero sigma bounds instead of raising. -/
theorem claim_C9 :
    (∀ (xs : List Int) (x : Int) (zs : List Int), x ≠ 0 → (∀ z ∈ zs, z = 0) →
      removeTrailingZerosAndLastEntry (xs ++ x :: zs) = xs) ∧
    removeTrailingZerosAndLastEntry [1, 2, 0, 0] = [1] ∧
    removeTrailingZerosAndLastEntry [0, 0, 0] = [] ∧
    (∀ (sqrtFn : Rat → Rat) (l : List Int) (k : Rat),
      removeTrailingZerosAndLastEntry l = [] →
      getStatistics sqrtFn l k = ([], 0, (0, 0))) := by
  refine ⟨?_, by decide, by decide, ?_⟩
  · intro xs x zs hx hzs
    have hrev : ∀ z ∈ zs.reverse, z = 0 := fun z hz => hzs z (by simpa using hz)
    simp [removeTrailingZerosAndLastEntry, List.reverse_append,
      dropThroughFirstNonzero_zeros zs.reverse (x :: xs.reverse) hrev,
      dropThroughFirstNonzero, hx]
  · intro sqrtFn l k h
    simp [getStatistics, h]

/-- Witness for C9 at concrete inputs. -/
theorem claim_C9_witness :
    removeTrailingZerosAndLastEntry [4, 6, 0] = [4] ∧
    getStatistics (fun x => x) [0, 0] 2 = ([], 0, (0, 0)) := by
  constructor
  · exact claim_C9.1 [4] 6 [0] (by decide) (by decide)
  · exact claim_C9.2.2.2 (fun x => x) [0, 0] 2 (by decide)

/-- C10: a sensing-window start without an end, and a revision-window
start without an end, do not make the query fail: the missing end bound is
defaulted to 23:59:59 on the calendar day of the supplied start before
the corresponding filter is applied, independently for the two windows. -/
theorem claim_C10 :
    (∀ (d : PyDateTime) (rf rt : Option PyDateTime),
      ∃ rv, queryCmrFilters (some d) none rf rt =
        Except.ok (some (d, endOfDay d), rv)) ∧
    (∀ (sf st : Option PyDateTime) (d : PyDateTime),
      ∃ tv, queryCmrFilters sf st (some d) none =
        Except.ok (tv, some (d, endOfDay d))) := by
  constructor
  · intro d rf rt
    cases rf <;> cases rt <;> exact ⟨_, rfl⟩
  · intro sf st d
    cases sf <;> cases st <;> exact ⟨_, rfl⟩

/-- Input granule I1 of the C4 scenario. -/
def hlsI1 : CmrGranule :=
  ⟨"HLS.S30.T11AAA.2025001T000001.v2.0".toList, 10,
   "2025-01-01T10:00:00.000Z".toList, "SENTINEL-2A".toList, []⟩

/-- Input granule I2 of the C4 scenario. -/
def hlsI2 : CmrGranule :=
  ⟨"HLS.L30.T22BBB.2025002T000002.v2.0".toList, 11,
   "2025-01-02T10:00:00.000Z".toList, "LANDSAT-8".toList, []⟩

/-- Input granule I3 of the C4 scenario (never chosen by any output). -/
def hlsI3 : CmrGranule :=
  ⟨"HLS.S30.T33CCC.2025003T000003.v2.0".toList, 12,
   "2025-01-03T10:00:00.000Z".toList, "SENTINEL-2A".toList, []⟩

/-- Output granule A, produced from I1. -/
def dswxA : CmrGranule :=
  ⟨"OPERA_L3_DSWx-HLS_T11AAA_20250101T000001Z_20250102T000000Z_S2A_30_v1.0".toList, 1,
   "2025-02-01T00:00:00.000Z".toList, "SENTINEL-2A".toList,
   ["HLS.S30.T11AAA.2025001T000001.v2.0.B01.tif".toList]⟩

/-- Output granule B, also produced from I1 (a second production of the
same input, with a later production timestamp). -/
def dswxB : CmrGranule :=
  ⟨"OPERA_L3_DSWx-HLS_T11AAA_20250101T000001Z_20250103T000000Z_S2A_30_v1.0".toList, 1,
   "2025-02-02T00:00:00.000Z".toList, "SENTINEL-2A".toList,
   ["HLS.S30.T11AAA.2025001T000001.v2.0.B02.tif".toList]⟩

/-- Output granule C, produced from I2. -/
def dswxC : CmrGranule :=
  ⟨"OPERA_L3_DSWx-HLS_T22BBB_20250102T000002Z_20250104T000000Z_L8_30_v1.0".toList, 1,
   "2025-02-03T00:00:00.000Z".toList, "LANDSAT-8".toList,
   ["HLS.L30.T22BBB.2025002T000002.v2.0.Fmask.tif".toList]⟩

/-- C4: with outputs A and B choosing input I1, output C choosing input
I2, and queried input collections containing exactly {I1, I2, I3}, the
mapping yields `DSWx_Granule_Count` 2 on the rows for A and B and 1 on the
row for C, the orphan set {I3}, and an empty missing-input list. -/
theorem claim_C4 :
    (mapInputsToOutput [dswxA, dswxB, dswxC] [hlsI2] [hlsI1, hlsI3]).map
        (fun r => (r.1.map (fun row => (row.dswxId, row.inputProduct, row.granuleCount)),
                   r.2.1.map (fun o => o.granuleId), r.2.2))
      = some ([(dswxA.nativeId, hlsI1.nativeId, 2),
               (dswxB.nativeId, hlsI1.nativeId, 2),
               (dswxC.nativeId, hlsI2.nativeId, 1)],
              [hlsI3.nativeId], []) := by decide

/-- Two CSLC-S1 input granules with identical begin/end time fields
(the loop's ordering key) but different identifiers. -/
def cslcA : Str :=
  "S1A_IW_SLC__1SDV_20250101T000000_20250101T000027_058669_0743B7_0ADC".toList

def cslcB : Str :=
  "S1A_IW_SLC__1SDV_20250101T000000_20250101T000027_058669_0743B7_0BBB".toList

/-- C6 counterexample.  (1) `get_latest_input_granule` breaks ties between
equal ordering keys by keeping the first candidate encountered, so the
selection depends on the iteration order of the candidates — reversing the
list changes the result, refuting the claimed lexicographic tie-break and
order-independence.  (2) `get_hls_granule_from_dswx_input_list` returns
the first candidate matching the HLS pattern even when a later candidate
has a strictly greater encoded timestamp (`2025300` vs `2025001`),
refuting the claimed maximal-timestamp selection. -/
theorem counterexample_C6 :
    (getLatestInputGranule [cslcA, cslcB] "CSLC-S1".toList).1 ≠
      (getLatestInputGranule [cslcB, cslcA] "CSLC-S1".toList).1 ∧
    getHlsGranuleFromDswxInputList
        ["HLS.S30.T11AAA.2025001T000001.v2.0.B01.tif".toList,
         "HLS.S30.T11AAA.2025300T000001.v2.0.B01.tif".toList]
      = some "HLS.S30.T11AAA.2025001T000001.v2.0".toList := by decide

/-- Transitivity of Python string comparison. -/
theorem strLt_trans (a : Str) : ∀ b c : Str, strLt a b = true → strLt b c = true →
    strLt a c = true := by
  induction a with
  | nil =>
    intro b c hab hbc
    cases b with
    | nil => simp [strLt] at hab
    | cons x xs =>
      cases c with
      | nil => simp [strLt] at hbc
      | cons y ys => simp [strLt]
  | cons a as ih =>
    intro b c hab hbc
    cases b with
    | nil => simp [strLt] at hab
    | cons x xs =>
      cases c with
      | nil => simp [strLt] at hbc
      | cons y ys =>
        simp only [strLt] at hab hbc ⊢
        rcases lt_trichotomy a x with h1 | h1 | h1
        · rw [if_pos h1] at hab
          rcases lt_trichotomy x y with h2 | h2 | h2
          · rw [if_pos (lt_trans h1 h2)]
          · subst h2
            rw [if_pos h1]
          · rw [if_neg (not_lt.mpr (le_of_lt h2)), if_neg (ne_of_gt h2)] at hbc
            exact absurd hbc (by simp)
        · subst h1
          rw [if_neg (lt_irrefl _), if_pos rfl] at hab
          rcases lt_trichotomy a y with h2 | h2 | h2
          · rw [if_pos h2]
          · subst h2
            rw [if_neg (lt_irrefl _), if_pos rfl] at hbc ⊢
            exact ih xs ys hab hbc
          · rw [if_neg (not_lt.mpr (le_of_lt h2)), if_neg (ne_of_gt h2)] at hbc
            exact absurd hbc (by simp)
        · rw [if_neg (not_lt.mpr (le_of_lt h1)), if_neg (ne_of_gt h1)] at hab
          exact absurd hab (by simp)

/-- From `¬ (x < a)` and `x < c` conclude `a < c`, in Python string
comparison. -/
theorem strLt_of_not_lt (x : Str) : ∀ a c : Str, strLt x a = false → strLt x c = true →
    strLt a c = true := by
  induction x with
  | nil =>
    intro a c hxa hxc
    cases a with
    | nil => exact hxc
    | cons a0 ar => simp [strLt] at hxa
  | cons x0 xr ih =>
    intro a c hxa hxc
    cases c with
    | nil => simp [strLt] at hxc
    | cons c0 cr =>
      cases a with
      | nil => simp [strLt]
      | cons a0 ar =>
        simp only [strLt] at hxa hxc ⊢
        rcases lt_trichotomy x0 a0 with h1 | h1 | h1
        · rw [if_pos h1] at hxa
          exact absurd hxa (by simp)
        · subst h1
          rw [if_neg (lt_irrefl _), if_pos rfl] at hxa
          rcases lt_trichotomy x0 c0 with h2 | h2 | h2
          · rw [if_pos h2]
          · subst h2
            rw [if_neg (lt_irrefl _), if_pos rfl] at hxc ⊢
            exact ih ar cr hxa hxc
          · rw [if_neg (not_lt.mpr (le_of_lt h2)), if_neg (ne_of_gt h2)] at hxc
            exact absurd hxc (by simp)
        · rcases lt_trichotomy x0 c0 with h2 | h2 | h2
          · rw [if_pos (lt_trans h1 h2)]
          · subst h2
            rw [if_pos h1]
          · rw [if_neg (not_lt.mpr (le_of_lt h2)), if_neg (ne_of_gt h2)] at hxc
            exact absurd hxc (by simp)

/-- The end-time ordering key the CSLC-S1/RTC-S1 branch reads
(`gran.split("_")[6]`). -/
def cslcEndKey (gran : Str) : Str := (pySplit '_' gran).getD 6 []

/-- The begin-time field the CSLC-S1/RTC-S1 branch reads
(`gran.split("_")[5]`). -/
def cslcBeginKey (gran : Str) : Str := (pySplit '_' gran).getD 5 []

/-- A well-formed CSLC-S1/RTC-S1 candidate: at least seven `_`-separated
fields (so the indexing succeeds) and a nonempty end-time field. -/
def cslcOk (gran : Str) : Prop :=
  7 ≤ (pySplit '_' gran).length ∧ cslcEndKey gran ≠ []

instance (gran : Str) : Decidable (cslcOk gran) := by
  unfold cslcOk
  infer_instance

/-- On a well-formed candidate, one CSLC-S1/RTC-S1 loop iteration either
replaces the current best (when the candidate's end time is strictly
greater) or keeps it, setting `slc_add` either way. -/
theorem selStep_cslc (pt : Str) (hpt : pt = "CSLC-S1".toList ∨ pt = "RTC-S1".toList)
    (st : SelSt) (gran : Str) (h : cslcOk gran) :
    selStep pt st gran =
      if strLt st.latestEnd (cslcEndKey gran) then
        ⟨cslcEndKey gran, gran, cslcBeginKey gran, "-SLC".toList⟩
      else { st with slcAdd := "-SLC".toList } := by
  have hlen : ¬ (pySplit '_' gran).length < 6 := by
    have h7 := h.1
    omega
  rcases hpt with h1 | h1 <;> subst h1 <;>
    · rw [selStep, if_pos (by simp), if_neg hlen]
      rcases hb : strLt st.latestEnd (cslcEndKey gran) with _ | _ <;>
        simp_all [cslcEndKey, cslcBeginKey]

/-- After at least one well-formed candidate is processed, `slc_add` is
`"-SLC"`. -/
theorem selLoop_slcAdd (pt : Str) (hpt : pt = "CSLC-S1".toList ∨ pt = "RTC-S1".toList) :
    ∀ (grans : List Str) (st : SelSt), grans ≠ [] → (∀ g ∈ grans, cslcOk g) →
      (grans.foldl (selStep pt) st).slcAdd = "-SLC".toList := by
  intro grans
  induction grans with
  | nil => intro st hne _; exact absurd rfl hne
  | cons a l ih =>
    intro st _ h
    rw [List.foldl_cons, selStep_cslc pt hpt st a (h a (by simp))]
    rcases hl : l with _ | ⟨b, l2⟩
    · rcases hb : strLt st.latestEnd (cslcEndKey a) with _ | _ <;> simp [hb]
    · have hne2 : l ≠ [] := by simp [hl]
      rw [← hl]
      rcases hb : strLt st.latestEnd (cslcEndKey a) with _ | _ <;>
        · simp only [hb, if_true, if_false, Bool.false_eq_true, reduceIte]
          exact ih _ hne2 (fun g hg => h g (by simp [hg]))

/-- The candidate loop of `get_latest_input_granule` on well-formed
CSLC-S1/RTC-S1 candidates: either no candidate's end time strictly exceeds
the incoming state's and the best fields are unchanged, or the list splits
around a winner `g` — the first candidate attaining the strict maximum of
the end-time keys — whose fields are returned. -/
theorem selLoop_spec (pt : Str) (hpt : pt = "CSLC-S1".toList ∨ pt = "RTC-S1".toList) :
    ∀ (grans : List Str) (st : SelSt), (∀ g ∈ grans, cslcOk g) →
    ((∀ g ∈ grans, strLt st.latestEnd (cslcEndKey g) = false) ∧
      (grans.foldl (selStep pt) st).latestEnd = st.latestEnd ∧
      (grans.foldl (selStep pt) st).latestId = st.latestId ∧
      (grans.foldl (selStep pt) st).latestBegin = st.latestBegin) ∨
    (∃ pre g post, grans = pre ++ g :: post ∧
      strLt st.latestEnd (cslcEndKey g) = true ∧
      (∀ p ∈ pre, strLt (cslcEndKey p) (cslcEndKey g) = true) ∧
      (∀ q ∈ post, strLt (cslcEndKey g) (cslcEndKey q) = false) ∧
      (grans.foldl (selStep pt) st).latestEnd = cslcEndKey g ∧
      (grans.foldl (selStep pt) st).latestId = g ∧
      (grans.foldl (selStep pt) st).latestBegin = cslcBeginKey g) := by
  intro grans
  induction grans with
  | nil => intro st _; left; simp
  | cons a l ih =>
    intro st h
    have hstep := selStep_cslc pt hpt st a (h a (by simp))
    have hl : ∀ g ∈ l, cslcOk g := fun g hg => h g (by simp [hg])
    rcases hb : strLt st.latestEnd (cslcEndKey a) with _ | _
    · rw [hb] at hstep
      simp only [Bool.false_eq_true, reduceIte] at hstep
      rw [List.foldl_cons, hstep]
      rcases ih ({ st with slcAdd := "-SLC".toList }) hl with
        ⟨hA, hE, hI, hB⟩ | ⟨pre, g, post, hsplit, hgt, hpre, hpost, hE, hI, hB⟩
      · left
        refine ⟨?_, by simpa using hE, by simpa using hI, by simpa using hB⟩
        intro g hg
        rcases List.mem_cons.mp hg with h2 | h2
        · subst h2; exact hb
        · simpa using hA g h2
      · right
        refine ⟨a :: pre, g, post, by simp [hsplit], by simpa using hgt, ?_, hpost,
          hE, hI, hB⟩
        intro p hp
        rcases List.mem_cons.mp hp with h2 | h2
        · subst h2
          exact strLt_of_not_lt st.latestEnd (cslcEndKey p) (cslcEndKey g) hb
            (by simpa using hgt)
        · exact hpre p h2
    · rw [hb] at hstep
      simp only [reduceIte] at hstep
      rw [List.foldl_cons, hstep]
      rcases ih (⟨cslcEndKey a, a, cslcBeginKey a, "-SLC".toList⟩) hl with
        ⟨hA, hE, hI, hB⟩ | ⟨pre, g, post, hsplit, hgt, hpre, hpost, hE, hI, hB⟩
      · right
        refine ⟨[], a, l, by simp, hb, by simp, ?_, by simpa using hE, by simpa using hI,
          by simpa using hB⟩
        intro q hq
        simpa using hA q hq
      · right
        refine ⟨a :: pre, g, post, by simp [hsplit], ?_, ?_, hpost, hE, hI, hB⟩
        · exact strLt_trans st.latestEnd (cslcEndKey a) (cslcEndKey g) hb (by simpa using hgt)
        · intro p hp
          rcases List.mem_cons.mp hp with h2 | h2
          · subst h2; simpa using hgt
          · exact hpre p h2

/-- Field-wise equality for the selection state. -/
theorem SelStExt {a b : SelSt} (h1 : a.latestEnd = b.latestEnd) (h2 : a.latestId = b.latestId)
    (h3 : a.latestBegin = b.latestBegin) (h4 : a.slcAdd = b.slcAdd) : a = b := by
  cases a
  cases b
  simp_all

/-- C6 amended: for CSLC-S1/RTC-S1 candidates, `get_latest_input_granule`
selects the candidate whose end-time field (the family-specific ordering
key) is maximal in Python string order, but ties between equal keys are
broken by keeping the first candidate in iteration order — not by
lexicographic identifier order — so the selection depends on the order of
the candidate list; the selected candidate is the first element attaining
the strict maximum (every earlier candidate has a strictly smaller key,
no later candidate has a strictly greater one), and the returned triple is
its post-processed identifier together with its end and begin fields.
(The dswx-HLS helper `get_hls_granule_from_dswx_input_list` instead
returns the first pattern-matching candidate regardless of timestamp, as
the counterexample records.) -/
theorem claim_C6_amended :
    ∀ (pt : Str) (grans : List Str),
      (pt = "CSLC-S1".toList ∨ pt = "RTC-S1".toList) → grans ≠ [] →
      (∀ g ∈ grans, cslcOk g) →
      ∃ pre g post, grans = pre ++ g :: post ∧
        (∀ p ∈ pre, strLt (cslcEndKey p) (cslcEndKey g) = true) ∧
        (∀ q ∈ post, strLt (cslcEndKey g) (cslcEndKey q) = false) ∧
        getLatestInputGranule grans pt =
          (getLatestPost ⟨cslcEndKey g, g, cslcBeginKey g, "-SLC".toList⟩,
           cslcEndKey g, cslcBeginKey g) := by
  intro pt grans hpt hne h
  rcases selLoop_spec pt hpt grans ⟨[], [], [], []⟩ h with
    ⟨hA, _, _, _⟩ | ⟨pre, g, post, hsplit, _, hpre, hpost, hE, hI, hB⟩
  · exfalso
    rcases grans with _ | ⟨g0, l⟩
    · exact hne rfl
    · have h1 := hA g0 (by simp)
      have h2 := (h g0 (by simp)).2
      rcases hk : cslcEndKey g0 with _ | ⟨c, cs⟩
      · exact h2 hk
      · rw [hk] at h1
        simp [strLt] at h1
  · refine ⟨pre, g, post, hsplit, hpre, hpost, ?_⟩
    have hslc : (getLatestLoop grans pt).slcAdd = "-SLC".toList :=
      selLoop_slcAdd pt hpt grans ⟨[], [], [], []⟩ hne h
    have hst : getLatestLoop grans pt = ⟨cslcEndKey g, g, cslcBeginKey g, "-SLC".toList⟩ :=
      SelStExt hE hI hB hslc
    rw [getLatestInputGranule, hst]

/-- A CSLC-S1 input granule whose end-time field exceeds `cslcA`'s. -/
def cslcC : Str :=
  "S1A_IW_SLC__1SDV_20250102T000000_20250102T000027_058670_0743B8_0CCC".toList

/-- Witness for the amended C6 on a concrete two-candidate list whose
second candidate has the strictly greater end time. -/
theorem claim_C6_amended_witness :
    ∃ pre g post, [cslcA, cslcC] = pre ++ g :: post ∧
      (∀ p ∈ pre, strLt (cslcEndKey p) (cslcEndKey g) = true) ∧
      (∀ q ∈ post, strLt (cslcEndKey g) (cslcEndKey q) = false) ∧
      getLatestInputGranule [cslcA, cslcC] "CSLC-S1".toList =
        (getLatestPost ⟨cslcEndKey g, g, cslcBeginKey g, "-SLC".toList⟩,
         cslcEndKey g, cslcBeginKey g) :=
  claim_C6_amended "CSLC-S1".toList [cslcA, cslcC] (Or.inl rfl) (by decide) (by decide)

/-- `liftOpt` succeeds when every element evaluation succeeds. -/
theorem liftOpt_isSome {α β : Type} (f : α → Option β) :
    ∀ l : List α, (∀ a ∈ l, (f a).isSome) → ∃ ys, liftOpt f l = some ys := by
  intro l
  induction l with
  | nil => exact fun _ => ⟨[], rfl⟩
  | cons a l ih =>
    intro h
    obtain ⟨ys, hys⟩ := ih (fun x hx => h x (by simp [hx]))
    obtain ⟨b, hb⟩ := Option.isSome_iff_exists.mp (h a (by simp))
    exact ⟨b :: ys, by simp [liftOpt, hb, hys]⟩

/-- `liftOpt` preserves length. -/
theorem liftOpt_length {α β : Type} (f : α → Option β) :
    ∀ (l : List α) (ys : List β), liftOpt f l = some ys → ys.length = l.length := by
  intro l
  induction l with
  | nil =>
    intro ys h
    simp only [liftOpt, Option.some.injEq] at h
    simp [← h]
  | cons a l ih =>
    intro ys h
    simp only [liftOpt] at h
    rcases hfa : f a with _ | b <;> rw [hfa] at h
    · simp at h
    · rcases hl : liftOpt f l with _ | bs <;> rw [hl] at h
      · simp at h
      · simp only [Option.some.injEq] at h
        simp [← h, ih bs hl]

/-- Pointwise content of a successful `liftOpt`. -/
theorem liftOpt_getElem {α β : Type} (f : α → Option β) :
    ∀ (l : List α) (ys : List β), liftOpt f l = some ys →
      ∀ (i : Nat) (h1 : i < l.length) (h2 : i < ys.length),
        f (l[i]) = some (ys[i]) := by
  intro l
  induction l with
  | nil => intro ys _ i h1; simp at h1
  | cons a l ih =>
    intro ys h i h1 h2
    simp only [liftOpt] at h
    rcases hfa : f a with _ | b <;> rw [hfa] at h
    · simp at h
    · rcases hl : liftOpt f l with _ | bs <;> rw [hl] at h
      · simp at h
      · simp only [Option.some.injEq] at h
        subst h
        cases i with
        | zero => simpa using hfa
        | succ j =>
          simp only [List.getElem_cons_succ]
          exact ih bs hl j (by simpa using h1) (by simpa using h2)

/-- C5: for every output granule whose extracted input id is absent from
all queried input collections, and whenever the run's per-output
extractions all succeed (so the run itself does not raise), the mapper
returns successfully, lists that id among the missing-input ids, and still
produces a row for that output whose input-side fields (`InputRevId`,
`InputRevDate`, `InputPlatform`) are all unset. -/
theorem claim_C5 :
    ∀ (dswxResults hlsl30 hlss30 : List CmrGranule) (g : CmrGranule) (cid : Str),
      g ∈ dswxResults →
      getHlsGranuleFromDswxInputList g.inputGranules = some cid →
      lookupNative (hlsl30 ++ hlss30) cid = none →
      (∀ g2 ∈ dswxResults,
        (getHlsGranuleFromDswxInputList g2.inputGranules).isSome ∧
        ((extractProductionDatetime g2.nativeId).toOption).isSome ∧
        ((removeProductionDatetimeFromGranuleId g2.nativeId).toOption).isSome) →
      ∃ rows orphans missing,
        mapInputsToOutput dswxResults hlsl30 hlss30 = some (rows, orphans, missing) ∧
        cid ∈ missing ∧
        ∃ r ∈ rows, r.dswxId = g.nativeId ∧ r.inputProduct = cid ∧
          r.inputRevId = none ∧ r.inputRevDate = none ∧ r.inputPlatform = none := by
  intro dswx hlsl30 hlss30 g cid hg hcid hlook hall
  obtain ⟨ips, hips⟩ := liftOpt_isSome (fun g2 => getHlsGranuleFromDswxInputList g2.inputGranules)
    dswx (fun a ha => (hall a ha).1)
  obtain ⟨pdts, hpdts⟩ := liftOpt_isSome
    (fun g2 => (extractProductionDatetime g2.nativeId).toOption) dswx
    (fun a ha => (hall a ha).2.1)
  obtain ⟨npdts, hnpdts⟩ := liftOpt_isSome
    (fun g2 => (removeProductionDatetimeFromGranuleId g2.nativeId).toOption) dswx
    (fun a ha => (hall a ha).2.2)
  obtain ⟨i, hi, hgi⟩ := List.mem_iff_getElem.mp hg
  have hlenips : ips.length = dswx.length := liftOpt_length _ dswx ips hips
  have hlenpdts : pdts.length = dswx.length := liftOpt_length _ dswx pdts hpdts
  have hlennpdts : npdts.length = dswx.length := liftOpt_length _ dswx npdts hnpdts
  have hiips : i < ips.length := by omega
  have hipdts : i < pdts.length := by omega
  have hinpdts : i < npdts.length := by omega
  have hipsi : ips[i] = cid := by
    have h1 := liftOpt_getElem _ dswx ips hips i hi hiips
    rw [hgi, hcid] at h1
    exact (Option.some.injEq _ _ ▸ h1).symm
  have hcidmem : cid ∈ ips := by
    rw [← hipsi]
    exact List.getElem_mem hiips
  rw [mapInputsToOutput]
  rw [hips, hpdts, hnpdts]
  refine ⟨_, _, _, rfl, ?_, ?_⟩
  · exact List.mem_filter.mpr ⟨hcidmem, by simp [hlook]⟩
  · have hzlen : i < (dswx.zip (ips.zip (pdts.zip npdts))).length := by
      simp only [List.length_zip]
      omega
    refine ⟨_, List.getElem_mem (by simpa using hzlen), ?_⟩
    rw [List.getElem_map]
    simp only [List.getElem_zip]
    rw [hgi, hipsi, hlook]
    simp

/-- Witness for C5: a single output referencing an input absent from the
(empty) input collections. -/
theorem claim_C5_witness :
    ∃ rows orphans missing,
      mapInputsToOutput [dswxA] [] [] = some (rows, orphans, missing) ∧
      "HLS.S30.T11AAA.2025001T000001.v2.0".toList ∈ missing ∧
      ∃ r ∈ rows, r.dswxId = dswxA.nativeId ∧
        r.inputProduct = "HLS.S30.T11AAA.2025001T000001.v2.0".toList ∧
        r.inputRevId = none ∧ r.inputRevDate = none ∧ r.inputPlatform = none :=
  claim_C5 [dswxA] [] [] dswxA "HLS.S30.T11AAA.2025001T000001.v2.0".toList
    (by simp) (by decide) (by decide) (by decide)

/-- Splitting distributes over the separator between a separator-free
block and the rest. -/
theorem pySplit_append_sep (c : Char) :
    ∀ (xs ys : Str), c ∉ xs → pySplit c (xs ++ c :: ys) = xs :: pySplit c ys := by
  intro xs
  induction xs with
  | nil => intro ys _; simp [pySplit]
  | cons x xr ih =>
    intro ys h
    have hx : ¬ x = c := fun hc => h (by simp [hc])
    have hr : c ∉ xr := fun hc => h (by simp [hc])
    simp only [List.cons_append, pySplit, if_neg hx]
    rw [List.append_eq, ih ys hr]

/-- A well-formed DSWx-HLS granule identifier
`OPERA_L3_DSWx-HLS_{tile}_{sens}_{prod}_{tail}` assembled from its
fields. -/
def mkDswxId (tile sens prod tail : Str) : Str :=
  "OPERA".toList ++ '_' :: ("L3".toList ++ '_' :: ("DSWx-HLS".toList ++ '_' ::
    (tile ++ '_' :: (sens ++ '_' :: (prod ++ '_' :: tail)))))

/-- The `_`-split of a well-formed DSWx-HLS identifier lists its fields. -/
theorem pySplit_mkDswxId (tile sens prod tail : Str)
    (htile : '_' ∉ tile) (hsens : '_' ∉ sens) (hprod : '_' ∉ prod) :
    pySplit '_' (mkDswxId tile sens prod tail) =
      "OPERA".toList :: "L3".toList :: "DSWx-HLS".toList :: tile :: sens :: prod ::
        pySplit '_' tail := by
  rw [mkDswxId, pySplit_append_sep _ _ _ (by decide), pySplit_append_sep _ _ _ (by decide),
    pySplit_append_sep _ _ _ (by decide), pySplit_append_sep _ _ _ htile,
    pySplit_append_sep _ _ _ hsens, pySplit_append_sep _ _ _ hprod]

/-- On a well-formed DSWx-HLS identifier whose tile field has 6 code
points and whose sensing and production fields have 16, the fixed-position
slice `[:42] + [58:]` removes exactly the production-timestamp field. -/
theorem mkDswxId_strip (tile sens prod tail : Str) (htile : tile.length = 6)
    (hsens : sens.length = 16) (hprod : prod.length = 16) :
    (mkDswxId tile sens prod tail).take 42 ++ (mkDswxId tile sens prod tail).drop 58 =
      ("OPERA".toList ++ '_' :: ("L3".toList ++ '_' :: ("DSWx-HLS".toList ++ '_' ::
        (tile ++ '_' :: (sens ++ ['_']))))) ++ '_' :: tail := by
  have h5 : ("OPERA".toList).length = 5 := by decide
  have h2 : ("L3".toList).length = 2 := by decide
  have h8 : ("DSWx-HLS".toList).length = 8 := by decide
  have hsheq : mkDswxId tile sens prod tail =
      (("OPERA".toList ++ '_' :: ("L3".toList ++ '_' :: ("DSWx-HLS".toList ++ '_' ::
        (tile ++ '_' :: (sens ++ ['_']))))) ++ prod) ++ '_' :: tail := by
    simp [mkDswxId, List.append_assoc]
  have hlen42 : ("OPERA".toList ++ '_' :: ("L3".toList ++ '_' :: ("DSWx-HLS".toList ++ '_' ::
      (tile ++ '_' :: (sens ++ ['_']))))).length = 42 := by
    simp [List.length_append, h5, h2, h8, htile, hsens]
  have hlen58 : (("OPERA".toList ++ '_' :: ("L3".toList ++ '_' :: ("DSWx-HLS".toList ++ '_' ::
      (tile ++ '_' :: (sens ++ ['_']))))) ++ prod).length = 58 := by
    simp [List.length_append, h5, h2, h8, htile, hsens, hprod]
  rw [hsheq, List.drop_left' hlen58, List.append_assoc, List.take_left' hlen42]

/-- `remove_production_datetime_from_granule_id` on a well-formed
DSWx-HLS identifier returns the identifier with the production field cut
out — a value independent of that field. -/
theorem removePDT_mkDswxId (tile sens prod tail : Str) (htile6 : tile.length = 6)
    (hsens16 : sens.length = 16) (hprod16 : prod.length = 16)
    (htile : '_' ∉ tile) (hsens : '_' ∉ sens) (hprod : '_' ∉ prod) :
    removeProductionDatetimeFromGranuleId (mkDswxId tile sens prod tail) =
      Except.ok (some (("OPERA".toList ++ '_' :: ("L3".toList ++ '_' :: ("DSWx-HLS".toList ++
        '_' :: (tile ++ '_' :: (sens ++ ['_']))))) ++ '_' :: tail)) := by
  rw [removeProductionDatetimeFromGranuleId, pySplit_mkDswxId tile sens prod tail htile hsens
    hprod]
  simp only [List.getElem?_cons_succ, List.getElem?_cons_zero, if_pos rfl]
  rw [mkDswxId_strip tile sens prod tail htile6 hsens16 hprod16]
  simp

/-- `extract_production_datetime` on a well-formed DSWx-HLS identifier
extracts exactly the production field. -/
theorem extractPDT_mkDswxId (tile sens prod tail : Str)
    (htile : '_' ∉ tile) (hsens : '_' ∉ sens) (hprod : '_' ∉ prod) :
    extractProductionDatetime (mkDswxId tile sens prod tail) =
      normalizeToDatetime (PyVal.str prod) := by
  rw [extractProductionDatetime, pySplit_mkDswxId tile sens prod tail htile hsens hprod]
  simp only [List.getElem?_cons_succ, List.getElem?_cons_zero, if_pos rfl]
  simp

/-- C7: two well-formed DSWx-HLS identifiers that differ only in the
production-timestamp field strip to identical strings (both equal to the
identifier with code points 42-57 removed, which does not mention the
production field), and both parse to the same tile id (split field 3) and
the same sensing timestamp (split field 4); the production fields
themselves are what `extract_production_datetime` reads. -/
theorem claim_C7 :
    ∀ (tile sens p1 p2 tail : Str),
      tile.length = 6 → sens.length = 16 → p1.length = 16 → p2.length = 16 →
      '_' ∉ tile → '_' ∉ sens → '_' ∉ p1 → '_' ∉ p2 →
      (removeProductionDatetimeFromGranuleId (mkDswxId tile sens p1 tail) =
          removeProductionDatetimeFromGranuleId (mkDswxId tile sens p2 tail) ∧
        removeProductionDatetimeFromGranuleId (mkDswxId tile sens p1 tail) =
          Except.ok (some (("OPERA".toList ++ '_' :: ("L3".toList ++ '_' ::
            ("DSWx-HLS".toList ++ '_' :: (tile ++ '_' :: (sens ++ ['_']))))) ++
            '_' :: tail))) ∧
      ((pySplit '_' (mkDswxId tile sens p1 tail))[3]? = some tile ∧
        (pySplit '_' (mkDswxId tile sens p2 tail))[3]? = some tile ∧
        (pySplit '_' (mkDswxId tile sens p1 tail))[4]? = some sens ∧
        (pySplit '_' (mkDswxId tile sens p2 tail))[4]? = some sens) ∧
      (extractProductionDatetime (mkDswxId tile sens p1 tail) =
          normalizeToDatetime (PyVal.str p1) ∧
        extractProductionDatetime (mkDswxId tile sens p2 tail) =
          normalizeToDatetime (PyVal.str p2)) := by
  intro tile sens p1 p2 tail htile6 hsens16 hp1 hp2 htile hsens hup1 hup2
  have hr1 := removePDT_mkDswxId tile sens p1 tail htile6 hsens16 hp1 htile hsens hup1
  have hr2 := removePDT_mkDswxId tile sens p2 tail htile6 hsens16 hp2 htile hsens hup2
  refine ⟨⟨by rw [hr1, hr2], hr1⟩, ?_, extractPDT_mkDswxId tile sens p1 tail htile hsens hup1,
    extractPDT_mkDswxId tile sens p2 tail htile hsens hup2⟩
  rw [pySplit_mkDswxId tile sens p1 tail htile hsens hup1,
    pySplit_mkDswxId tile sens p2 tail htile hsens hup2]
  simp

/-- Witness for C7 on the documented example identifier
`OPERA_L3_DSWx-HLS_T56MQV_20251107T000729Z_{prod}_S2B_30_v1.1` with two
different production timestamps. -/
theorem claim_C7_witness :
    removeProductionDatetimeFromGranuleId
        (mkDswxId "T56MQV".toList "20251107T000729Z".toList "20251113T173736Z".toList
          "S2B_30_v1.1".toList) =
      removeProductionDatetimeFromGranuleId
        (mkDswxId "T56MQV".toList "20251107T000729Z".toList "20251114T000000Z".toList
          "S2B_30_v1.1".toList) :=
  (claim_C7 "T56MQV".toList "20251107T000729Z".toList "20251113T173736Z".toList
    "20251114T000000Z".toList "S2B_30_v1.1".toList (by decide) (by decide) (by decide)
    (by decide) (by decide) (by decide) (by decide) (by decide)).1.1
